import Mathlib

/-!
Shallow embedding of the Jiomosa WebRTC renderer (src/webrtc_renderer) and the
adaptive-bandwidth controller (src/renderer/websocket_handler.py), with theorems
settling the frozen claims about the natural-language specification.

Time is modelled as rationals, byte counts as rationals or naturals, and the
asynchronous operations of the source as explicit state-passing functions.
External effects (Playwright page objects, network sends) are abstracted into
outcome parameters; all state transitions mirror the Python source line by line.
-/

namespace Jiomosa

/-- Mirror of webrtc_renderer/config.py Settings (the fields used by the claims),
with the default values from that file. -/
structure Settings where
  browser_max_sessions : Nat
  browser_session_timeout : ℚ
  session_cleanup_interval : ℚ
  webrtc_video_width : Nat
  webrtc_video_height : Nat
  webrtc_framerate : Nat
deriving DecidableEq

/-- Default values from config.py. -/
def defaultSettings : Settings :=
  { browser_max_sessions := 10
    browser_session_timeout := 120
    session_cleanup_interval := 60
    webrtc_video_width := 720
    webrtc_video_height := 1280
    webrtc_framerate := 30 }

/-- Per-session state kept by BrowserPool: the context/page viewport and the
last-activity timestamp (browser_pool.py stores these in the contexts, pages and
session_timestamps dictionaries keyed by session id; we fuse them into one
association list since they are updated together). -/
structure SessionData where
  width : Nat
  height : Nat
  timestamp : ℚ
deriving DecidableEq

/-- The BrowserPool dictionaries, as an association list keyed by session id. -/
structure PoolState where
  pages : List (String × SessionData)
deriving DecidableEq

/-- Dictionary lookup, as in self.pages.get(session_id). -/
def PoolState.lookup (st : PoolState) (id : String) : Option SessionData :=
  (st.pages.find? (fun p => p.1 == id)).map (·.2)

/-- Python `width or settings.default`: None and 0 both fall back to the default,
because 0 is falsy in Python. -/
def orDefault (w : Option Nat) (d : Nat) : Nat :=
  match w with
  | some n => if n = 0 then d else n
  | none => d

/-- Result of BrowserPool.create_session: the early-return with the existing page
(line 98-100), the RuntimeError at capacity (line 102-103), or a fresh page. -/
inductive CreateResult where
  | created (page : SessionData)
  | existing (page : SessionData)
  | atCapacity
deriving DecidableEq

/-- BrowserPool.create_session (browser_pool.py lines 95-322): return the existing
page if the id is taken; raise at capacity; otherwise create a context+page with
the requested-or-default viewport and record the current timestamp. -/
def createSession (cfg : Settings) (st : PoolState) (id : String)
    (w h : Option Nat) (now : ℚ) : CreateResult × PoolState :=
  match st.lookup id with
  | some page => (.existing page, st)
  | none =>
    if cfg.browser_max_sessions ≤ st.pages.length then
      (.atCapacity, st)
    else
      let page : SessionData :=
        { width := orDefault w cfg.webrtc_video_width
          height := orDefault h cfg.webrtc_video_height
          timestamp := now }
      (.created page, { pages := st.pages ++ [(id, page)] })

/-- Update the last-activity timestamp of a session, as in
self.session_timestamps[session_id] = datetime.now(). -/
def touch (st : PoolState) (id : String) (now : ℚ) : PoolState :=
  { pages := st.pages.map (fun p =>
      if p.1 == id then (p.1, { p.2 with timestamp := now }) else p) }

/-- BrowserPool.close_session (lines 450-476): unknown ids are a logged warning
and a normal return; known ids have their page, context and timestamp entries
deleted. The Playwright close calls are external effects. -/
def closeSession (st : PoolState) (id : String) : PoolState :=
  if (st.lookup id).isSome then
    { pages := st.pages.filter (fun p => !(p.1 == id)) }
  else st

/-- BrowserPool.cleanup_stale_sessions (lines 478-494): collect ids whose
inactivity exceeds browser_session_timeout, then close them one by one. -/
def cleanupStale (cfg : Settings) (st : PoolState) (now : ℚ) : PoolState :=
  let stale := (st.pages.filter
    (fun p => cfg.browser_session_timeout < now - p.2.timestamp)).map (·.1)
  stale.foldl closeSession st

/-- Outcome of the external page.goto call inside BrowserPool.navigate. -/
inductive GotoOutcome where
  | ok
  | timeout
  | failed
deriving DecidableEq

/-- BrowserPool.navigate (lines 328-343): ValueError for unknown sessions; on a
goto success update the activity timestamp and return True; any goto exception
(timeouts included) is caught and returns False. -/
def navigate (st : PoolState) (id : String) (outcome : GotoOutcome) (now : ℚ) :
    Except String (Bool × PoolState) :=
  match st.lookup id with
  | none => .error "Session not found"
  | some _ =>
    match outcome with
    | .ok => .ok (true, touch st id now)
    | .timeout => .ok (false, st)
    | .failed => .ok (false, st)

/-- State of one WebRTC peer transport (webrtc_manager.py WebRTCPeer): the bound
session id, whether the connection has been closed, and whether the peer is
still registered in the manager dictionary. -/
inductive PeerConnState where
  | connected
  | closed
deriving DecidableEq

structure PeerData where
  session_id : String
  state : PeerConnState
  registered : Bool
deriving DecidableEq

/-- Combined process state: the browser pool plus the WebRTCManager peers
dictionary. Peer transports stay in the list after deregistration so their
connection state remains observable. -/
structure SystemState where
  pool : PoolState
  peers : List (String × PeerData)
deriving DecidableEq

/-- WebRTCManager.close_peer (webrtc_manager.py lines 235-253): unknown peers are
a no-op; otherwise the peer connection is closed, the peer is removed from the
dictionary, and afterwards the browser session bound to it is closed. -/
def closePeer (sys : SystemState) (pid : String) : SystemState :=
  match sys.peers.find? (fun p => p.1 == pid && p.2.registered) with
  | none => sys
  | some (_, pd) =>
    let peers := sys.peers.map (fun p =>
      if p.1 == pid then (p.1, { p.2 with state := .closed, registered := false })
      else p)
    { pool := closeSession sys.pool pd.session_id, peers := peers }

/-- WebRTCManager.close_all_peers_for_session (lines 255-263): snapshot the ids
of peers bound to the session, then close each. -/
def closeAllPeersForSession (sys : SystemState) (sid : String) : SystemState :=
  let pids := (sys.peers.filter
    (fun p => p.2.session_id == sid && p.2.registered)).map (·.1)
  pids.foldl closePeer sys

/-- WebRTCManager.create_peer (lines 219-229): an existing peer id is closed
first, then a fresh connected peer bound to the session is registered. -/
def createPeer (sys : SystemState) (sid pid : String) : SystemState :=
  let sys := closePeer sys pid
  { sys with peers := sys.peers ++ [(pid, ⟨sid, .connected, true⟩)] }

/-- HTTP-level response of the FastAPI endpoints in main.py: status code, the
success flag of the JSON body, and the optional url/viewport fields. -/
structure ApiResponse where
  code : Nat
  success : Bool
  url : Option String
  viewport : Option (Nat × Nat)
deriving DecidableEq

/-- Does the second character list start the first one. This is
str.startswith on the underlying character lists, written out so that it
reduces inside the kernel. -/
def charsStartWith : List Char → List Char → Bool
  | _, [] => true
  | [], _ :: _ => false
  | c :: cs, d :: ds => c == d && charsStartWith cs ds

/-- Modelled from the spec and the pydantic library: main.py declares
URLLoad.url as a pydantic HttpUrl, whose validation (outside this repository)
admits exactly the schemes http and https and rejects inputs with no scheme;
FastAPI turns a validation failure into a 422 before the handler runs. -/
def httpUrlValid (url : String) : Bool :=
  charsStartWith url.data "http://".data || charsStartWith url.data "https://".data

/-- main.py load_url (lines 180-202) together with request validation: invalid
urls never reach the handler (422); an unknown session surfaces the ValueError
as a 404; navigate returning False becomes a 500; True becomes a success body
carrying the url. -/
def apiLoadUrl (st : PoolState) (id : String) (url : String)
    (outcome : GotoOutcome) (now : ℚ) : ApiResponse × PoolState :=
  if httpUrlValid url then
    match navigate st id outcome now with
    | .error _ => ({ code := 404, success := false, url := none, viewport := none }, st)
    | .ok (true, st2) =>
      ({ code := 200, success := true, url := some url, viewport := none }, st2)
    | .ok (false, st2) =>
      ({ code := 500, success := false, url := none, viewport := none }, st2)
  else
    ({ code := 422, success := false, url := none, viewport := none }, st)

/-- main.py create_session (lines 151-177): capacity RuntimeError becomes a 500;
otherwise a success body with the viewport of the returned page (for an existing
id, the viewport of the existing page). -/
def apiCreateSession (cfg : Settings) (sys : SystemState) (id : String)
    (w h : Option Nat) (now : ℚ) : ApiResponse × SystemState :=
  match createSession cfg sys.pool id w h now with
  | (.atCapacity, st2) =>
    ({ code := 500, success := false, url := none, viewport := none },
     { sys with pool := st2 })
  | (.created page, st2) =>
    ({ code := 200, success := true, url := none, viewport := some (page.width, page.height) },
     { sys with pool := st2 })
  | (.existing page, st2) =>
    ({ code := 200, success := true, url := none, viewport := some (page.width, page.height) },
     { sys with pool := st2 })

/-- main.py close_session (lines 205-225): close all WebRTC peers for the
session, close the browser session, and report success; neither callee raises
for unknown ids, so the endpoint always answers 200. -/
def apiCloseSession (sys : SystemState) (sid : String) : ApiResponse × SystemState :=
  let sys1 := closeAllPeersForSession sys sid
  let sys2 := { sys1 with pool := closeSession sys1.pool sid }
  ({ code := 200, success := true, url := none, viewport := none }, sys2)

/-- The periodic reaper task in main.py lifespan calls
browser_pool.cleanup_stale_sessions, which touches only the pool. -/
def cleanupStaleSys (cfg : Settings) (sys : SystemState) (now : ℚ) : SystemState :=
  { sys with pool := cleanupStale cfg sys.pool now }

/-- Lift of apiLoadUrl to the combined state. -/
def apiLoadUrlSys (sys : SystemState) (id : String) (url : String)
    (outcome : GotoOutcome) (now : ℚ) : ApiResponse × SystemState :=
  let r := apiLoadUrl sys.pool id url outcome now
  (r.1, { sys with pool := r.2 })

/-- States reachable from process start through the operations the service
exposes: session create/load/close over HTTP, peer join and disconnect over
signaling, and the periodic stale-session reaper. -/
inductive Reachable (cfg : Settings) : SystemState → Prop where
  | init : Reachable cfg ⟨⟨[]⟩, []⟩
  | create (sys : SystemState) (id : String) (w h : Option Nat) (now : ℚ) :
      Reachable cfg sys → Reachable cfg (apiCreateSession cfg sys id w h now).2
  | load (sys : SystemState) (id url : String) (outcome : GotoOutcome) (now : ℚ) :
      Reachable cfg sys → Reachable cfg (apiLoadUrlSys sys id url outcome now).2
  | close (sys : SystemState) (sid : String) :
      Reachable cfg sys → Reachable cfg (apiCloseSession sys sid).2
  | joinPeer (sys : SystemState) (sid pid : String) :
      Reachable cfg sys → (sys.pool.lookup sid).isSome = true →
      Reachable cfg (createPeer sys sid pid)
  | disconnect (sys : SystemState) (pid : String) :
      Reachable cfg sys → Reachable cfg (closePeer sys pid)
  | reap (sys : SystemState) (now : ℚ) :
      Reachable cfg sys → Reachable cfg (cleanupStaleSys cfg sys now)

/-- A peer deregistered from the manager dictionary has had its connection
closed (close_peer sets both together; fresh peers are registered). -/
def WellFormedPeers (sys : SystemState) : Prop :=
  ∀ p ∈ sys.peers, p.2.registered = false → p.2.state = .closed

/-! ## Video track (video_track.py BrowserVideoTrack) -/

/-- A delivered video frame: its pixel dimensions and the presentation
timestamp assigned in _create_video_frame / _create_blank_frame. -/
structure Frame where
  width : Nat
  height : Nat
  pts : Nat
deriving DecidableEq

/-- Screenshot bytes, abstracted to what the frame pipeline observes: the image
dimensions and whether PIL can decode them. -/
structure Bytes where
  width : Nat
  height : Nat
  decodable : Bool
deriving DecidableEq

/-- Outcome of browser_pool.screenshot inside recv: bytes, None, or an
exception propagating out of the await. -/
inductive CaptureOutcome where
  | ok (b : Bytes)
  | noBytes
  | raised
deriving DecidableEq

/-- Mutable fields of BrowserVideoTrack used by recv. -/
structure TrackState where
  fps : Nat
  frame_count : Nat
  last_screenshot : Option Bytes
  frame_deadline : ℚ
  last_frame_time : ℚ
  running : Bool
deriving DecidableEq

/-- BrowserVideoTrack.__init__ for a given fps. -/
def initTrack (fps : Nat) : TrackState :=
  { fps := fps, frame_count := 0, last_screenshot := none
    frame_deadline := 0, last_frame_time := 0, running := true }

def frameInterval (fps : Nat) : ℚ := 1 / fps

/-- _create_blank_frame (lines 129-141): a black frame sized by the process-wide
settings defaults, with pts equal to the current frame count. -/
def blankFrame (cfg : Settings) (count : Nat) : Frame :=
  { width := cfg.webrtc_video_width, height := cfg.webrtc_video_height, pts := count }

/-- _create_video_frame (lines 102-127): decode the screenshot into a frame with
pts equal to the current frame count; any decoding error falls back to the
blank frame (still with the current count). -/
def createVideoFrame (cfg : Settings) (b : Bytes) (count : Nat) : Frame :=
  if b.decodable then { width := b.width, height := b.height, pts := count }
  else blankFrame cfg count

/-- The non-skip tail of recv (lines 77-100): on screenshot bytes, cache them,
build the frame and increment the counter; on a missing screenshot or an
exception, return a blank frame without touching the counter or the cache. -/
def recvCapture (cfg : Settings) (st : TrackState) (t lft iv : ℚ)
    (cap : CaptureOutcome) : Frame × TrackState :=
  match cap with
  | .ok b =>
    (createVideoFrame cfg b st.frame_count,
     { st with last_screenshot := some b
               frame_count := st.frame_count + 1
               frame_deadline := t + iv
               last_frame_time := lft })
  | .noBytes =>
    (blankFrame cfg st.frame_count,
     { st with frame_deadline := t + iv, last_frame_time := lft })
  | .raised =>
    (blankFrame cfg st.frame_count,
     { st with frame_deadline := t + iv, last_frame_time := lft })

/-- BrowserVideoTrack.recv (lines 40-100). The wall clock reading at entry is t;
the FPS rate-limit sleep moves last_frame_time to at least one interval past its
previous value; the skip/reuse branch fires when the entry time is more than one
interval past the deadline (a zero deadline is first initialized to one interval
past now) and a cached screenshot exists. -/
def recv (cfg : Settings) (st : TrackState) (t : ℚ) (cap : CaptureOutcome) :
    Except Unit (Frame × TrackState) :=
  if st.running = false then .error () else
  match st.last_screenshot with
  | some b =>
    if (if st.frame_deadline = 0 then t + frameInterval st.fps else st.frame_deadline)
        + frameInterval st.fps < t then
      .ok (createVideoFrame cfg b st.frame_count,
           { st with frame_deadline := t + frameInterval st.fps
                     last_frame_time :=
                       if t - st.last_frame_time < frameInterval st.fps
                       then st.last_frame_time + frameInterval st.fps else t
                     frame_count := st.frame_count + 1 })
    else
      .ok (recvCapture cfg st t
        (if t - st.last_frame_time < frameInterval st.fps
          then st.last_frame_time + frameInterval st.fps else t)
        (frameInterval st.fps) cap)
  | none =>
    .ok (recvCapture cfg st t
      (if t - st.last_frame_time < frameInterval st.fps
        then st.last_frame_time + frameInterval st.fps else t)
      (frameInterval st.fps) cap)

/-- The condition under which recv reuses the cached screenshot instead of
calling browser_pool.screenshot at all. -/
def skipGuard (st : TrackState) (t : ℚ) : Bool :=
  st.last_screenshot.isSome && decide ((if st.frame_deadline = 0
    then t + frameInterval st.fps else st.frame_deadline) + frameInterval st.fps < t)

/-- A run of recv calls on one subscriber track: each step supplies the entry
time and the screenshot outcome; the delivered frames are collected in order. -/
def runTrack (cfg : Settings) (st : TrackState) :
    List (ℚ × CaptureOutcome) → List Frame × TrackState
  | [] => ([], st)
  | (t, cap) :: rest =>
    match recv cfg st t cap with
    | .error _ => ([], st)
    | .ok (f, st2) =>
      let r := runTrack cfg st2 rest
      (f :: r.1, r.2)

/-! ## Adaptive bandwidth controller (renderer/websocket_handler.py) -/

/-- BandwidthMonitor state: the sliding (timestamp, frame_size) window. -/
structure BandwidthMonitor where
  frame_times : List (ℚ × ℚ)
deriving DecidableEq

/-- self.max_history = 30. -/
def maxHistory : Nat := 30

/-- Quality tier thresholds in Mbps (websocket_handler.py lines 25-27). -/
def fastThreshold : ℚ := 5
def normalThreshold : ℚ := 2

/-- BandwidthMonitor.record_frame (lines 29-35): append the sample and pop the
oldest when the window exceeds 30 entries. -/
def record_frame (m : BandwidthMonitor) (t size : ℚ) : BandwidthMonitor :=
  { frame_times := if maxHistory < (m.frame_times ++ [(t, size)]).length
      then (m.frame_times ++ [(t, size)]).tail
      else m.frame_times ++ [(t, size)] }

/-- Record a whole sample sequence in order, starting from an empty window. -/
def recordAll (samples : List (ℚ × ℚ)) : BandwidthMonitor :=
  samples.foldl (fun m s => record_frame m s.1 s.2) ⟨[]⟩

/-- BandwidthMonitor.get_bandwidth_mbps (lines 37-61): default 5.0 below two
samples or below 100 ms of data; otherwise 8 times the byte total over the
window time span, in Mbps, clamped to the interval from 0.5 to 50. -/
def get_bandwidth_mbps (m : BandwidthMonitor) : ℚ :=
  if m.frame_times.length < 2 then 5
  else
    let t0 := ((m.frame_times.head?).getD (0, 0)).1
    let tn := ((m.frame_times.getLast?).getD (0, 0)).1
    let dt := tn - t0
    if dt < 1 / 10 then 5
    else
      let totalBytes := (m.frame_times.map (·.2)).sum
      let mbps := totalBytes * 8 / dt / 1000000
      max (1 / 2) (min 50 mbps)

/-- BandwidthMonitor.get_recommended_quality (lines 63-72). -/
def get_recommended_quality (m : BandwidthMonitor) : Nat :=
  let bw := get_bandwidth_mbps m
  if fastThreshold < bw then 90
  else if normalThreshold < bw then 75
  else 50

/-- BandwidthMonitor.get_recommended_fps (lines 74-84). -/
def get_recommended_fps (m : BandwidthMonitor) : Nat :=
  let bw := get_bandwidth_mbps m
  if fastThreshold < bw then 30
  else if normalThreshold < bw then 30
  else 20

/-- The quality/fps update performed inside WebSocketHandler.record_frame_sent
(lines 197-219) at a should_adjust tick: applied only with adaptive mode on. -/
def adjustTick (adaptive : Bool) (m : BandwidthMonitor) (q fps : Nat) : Nat × Nat :=
  if adaptive then (get_recommended_quality m, get_recommended_fps m) else (q, fps)

/-! ## Input data channel dispatch (webrtc_manager.py) -/

/-- JSON values, for the json.loads result of a data channel message. -/
inductive Json where
  | null
  | bool (b : Bool)
  | num (n : Int)
  | str (s : String)
  | arr (elems : List Json)
  | obj (fields : List (String × Json))

/-- dict.get(key): a field lookup that yields nothing on non-objects. -/
def Json.get : Json → String → Option Json
  | .obj fields, k => (fields.find? (fun f => f.1 == k)).map (·.2)
  | _, _ => none

/-- dict.get(key, default). -/
def Json.getD (j : Json) (k : String) (d : Json) : Json :=
  (j.get k).getD d

/-- An invocation of a BrowserPool input method: the driver interface of the
session (spec section 4.1), carrying the raw values Python would pass. -/
inductive DriverCall where
  | click (x y : Json)
  | scroll (deltaY : Json)
  | typeText (text : Json)
  | pressKey (key : Json)

/-- _handle_data_channel_message (lines 81-110), up to its single driver call:
a parse failure (none) or an unrecognized type dispatches nothing; otherwise the
event reaches the matching BrowserPool method with dict.get defaults. -/
def decodeEvent : Option Json → Option DriverCall
  | none => none
  | some data =>
    match data.get "type" with
    | some (.str "click") =>
      some (.click (data.getD "x" (.num 0)) (data.getD "y" (.num 0)))
    | some (.str "scroll") =>
      some (.scroll (data.getD "deltaY" (.num 0)))
    | some (.str "text") =>
      some (.typeText (data.getD "text" (.str "")))
    | some (.str "key") =>
      some (.pressKey (data.getD "key" (.str "")))
    | _ => none

/-- Event-loop view of one data channel: messages received so far in channel
order, handler tasks spawned by asyncio.create_task and not yet run (the loop
ready queue is FIFO), and the driver calls issued so far. Each handler performs
its driver call in its first execution slice, because neither json.loads nor
the get_page coroutine suspends before the BrowserPool input await. -/
structure LoopState where
  received : List (Option Json)
  queue : List (Option Json)
  dispatched : List DriverCall

/-- Interleavings of the data channel and the event loop: on_message appends the
message and spawns its handler task at the back of the FIFO ready queue; a run
step pops the front task, which issues its driver call (if any) and finishes. -/
inductive LoopReachable : LoopState → Prop where
  | init : LoopReachable ⟨[], [], []⟩
  | recv (s : LoopState) (m : Option Json) :
      LoopReachable s →
      LoopReachable ⟨s.received ++ [m], s.queue ++ [m], s.dispatched⟩
  | run (r : List (Option Json)) (q : List (Option Json))
      (d : List DriverCall) (m : Option Json) :
      LoopReachable ⟨r, m :: q, d⟩ →
      LoopReachable ⟨r, q, d ++ (decodeEvent m).toList⟩

/-- The three data channel messages of the input-ordering scenario in the spec:
click(100,200), then text hello, then key Enter. -/
def msgClick : Option Json :=
  some (.obj [("type", .str "click"), ("x", .num 100), ("y", .num 200)])

def msgText : Option Json :=
  some (.obj [("type", .str "text"), ("text", .str "hello")])

def msgKey : Option Json :=
  some (.obj [("type", .str "key"), ("key", .str "Enter")])

/-! ## Helper lemmas -/

theorem lookup_closeSession_self (st : PoolState) (id : String) :
    (closeSession st id).lookup id = none := by
  unfold closeSession
  split
  · unfold PoolState.lookup
    rw [Option.map_eq_none', List.find?_eq_none]
    intro p hp
    have h2 := (List.mem_filter.mp hp).2
    simp only [Bool.not_eq_true'] at h2
    simp [h2]
  · rename_i h
    exact Option.not_isSome_iff_eq_none.mp h

theorem lookup_closeSession_of_none (st : PoolState) (id other : String)
    (h : st.lookup id = none) : (closeSession st other).lookup id = none := by
  unfold closeSession
  split
  · unfold PoolState.lookup at h ⊢
    rw [Option.map_eq_none', List.find?_eq_none] at h ⊢
    intro p hp
    exact h p (List.mem_of_mem_filter hp)
  · exact h

theorem lookup_foldl_closeSession_of_none (l : List String) (st : PoolState)
    (id : String) (h : st.lookup id = none) :
    (l.foldl closeSession st).lookup id = none := by
  induction l generalizing st with
  | nil => exact h
  | cons a l ih => exact ih _ (lookup_closeSession_of_none st id a h)

theorem lookup_foldl_closeSession_mem (l : List String) (st : PoolState)
    (id : String) (h : id ∈ l) : (l.foldl closeSession st).lookup id = none := by
  induction l generalizing st with
  | nil => cases h
  | cons a l ih =>
    rcases List.mem_cons.mp h with h | h
    · subst h
      by_cases hm : id ∈ l
      · exact ih _ hm
      · exact lookup_foldl_closeSession_of_none l _ id (lookup_closeSession_self st id)
    · exact ih _ h

theorem closeSession_length_le (st : PoolState) (id : String) :
    (closeSession st id).pages.length ≤ st.pages.length := by
  unfold closeSession
  split
  · exact List.length_filter_le _ _
  · exact le_rfl

theorem foldl_closeSession_length_le (l : List String) (st : PoolState) :
    (l.foldl closeSession st).pages.length ≤ st.pages.length := by
  induction l generalizing st with
  | nil => exact le_rfl
  | cons a l ih => exact le_trans (ih _) (closeSession_length_le st a)

theorem touch_length (st : PoolState) (id : String) (now : ℚ) :
    (touch st id now).pages.length = st.pages.length := by
  simp [touch]

theorem cleanupStale_length_le (cfg : Settings) (st : PoolState) (now : ℚ) :
    (cleanupStale cfg st now).pages.length ≤ st.pages.length := by
  unfold cleanupStale
  exact foldl_closeSession_length_le _ _

theorem closePeer_pool_length_le (sys : SystemState) (pid : String) :
    (closePeer sys pid).pool.pages.length ≤ sys.pool.pages.length := by
  unfold closePeer
  split
  · exact le_rfl
  · exact closeSession_length_le _ _

theorem foldl_closePeer_pool_length_le (l : List String) (sys : SystemState) :
    (l.foldl closePeer sys).pool.pages.length ≤ sys.pool.pages.length := by
  induction l generalizing sys with
  | nil => exact le_rfl
  | cons a l ih => exact le_trans (ih _) (closePeer_pool_length_le sys a)

theorem createSession_length (cfg : Settings) (st : PoolState) (id : String)
    (w h : Option Nat) (now : ℚ)
    (hle : st.pages.length ≤ cfg.browser_max_sessions) :
    (createSession cfg st id w h now).2.pages.length ≤ cfg.browser_max_sessions := by
  unfold createSession
  cases st.lookup id with
  | some page => exact hle
  | none =>
    simp only
    split
    · exact hle
    · rename_i hlt
      push_neg at hlt
      simpa using hlt

theorem apiCreateSession_pool (cfg : Settings) (sys : SystemState) (id : String)
    (w h : Option Nat) (now : ℚ) :
    (apiCreateSession cfg sys id w h now).2.pool
      = (createSession cfg sys.pool id w h now).2 := by
  unfold apiCreateSession
  rcases hc : createSession cfg sys.pool id w h now with ⟨r, st2⟩
  cases r <;> simp [hc]

theorem apiLoadUrl_length (st : PoolState) (id url : String)
    (outcome : GotoOutcome) (now : ℚ) :
    (apiLoadUrl st id url outcome now).2.pages.length = st.pages.length := by
  unfold apiLoadUrl navigate
  split
  · cases hl : st.lookup id with
    | none => simp
    | some sd => cases outcome <;> simp [touch_length]
  · simp

theorem apiCloseSession_pool (sys : SystemState) (sid : String) :
    (apiCloseSession sys sid).2.pool
      = closeSession (closeAllPeersForSession sys sid).pool sid := rfl

theorem apiCloseSession_peers (sys : SystemState) (sid : String) :
    (apiCloseSession sys sid).2.peers = (closeAllPeersForSession sys sid).peers := rfl

theorem createPeer_pool (sys : SystemState) (sid pid : String) :
    (createPeer sys sid pid).pool = (closePeer sys pid).pool := rfl

theorem apiLoadUrlSys_pool (sys : SystemState) (id url : String)
    (outcome : GotoOutcome) (now : ℚ) :
    (apiLoadUrlSys sys id url outcome now).2.pool
      = (apiLoadUrl sys.pool id url outcome now).2 := rfl

theorem cleanupStaleSys_pool (cfg : Settings) (sys : SystemState) (now : ℚ) :
    (cleanupStaleSys cfg sys now).pool = cleanupStale cfg sys.pool now := rfl

theorem closePeer_wf (sys : SystemState) (pid : String)
    (h : WellFormedPeers sys) : WellFormedPeers (closePeer sys pid) := by
  unfold closePeer
  split
  · exact h
  · intro p hp hr
    rcases List.mem_map.mp hp with ⟨a, ha, rfl⟩
    by_cases hk : (a.1 == pid) = true
    · rw [if_pos hk]
    · rw [if_neg hk] at hr ⊢
      exact h a ha hr

theorem foldl_closePeer_closes (sid : String) (todo : List String)
    (sys : SystemState) (hwf : WellFormedPeers sys)
    (hcov : ∀ p ∈ sys.peers, p.2.session_id = sid → p.2.registered = true →
      p.1 ∈ todo) :
    ∀ p ∈ (todo.foldl closePeer sys).peers, p.2.session_id = sid →
      p.2.state = .closed ∧ p.2.registered = false := by
  induction todo generalizing sys with
  | nil =>
    intro p hp hsid
    cases hb : p.2.registered with
    | false => exact ⟨hwf p hp hb, rfl⟩
    | true => cases hcov p hp hsid hb
  | cons pid rest ih =>
    simp only [List.foldl_cons]
    apply ih (closePeer sys pid) (closePeer_wf sys pid hwf)
    intro p hp hsid hreg
    rcases hf : sys.peers.find? (fun q => q.1 == pid && q.2.registered) with _ | ⟨k, pd⟩
    · simp only [closePeer, hf] at hp
      rcases List.mem_cons.mp (hcov p hp hsid hreg) with heq | hmem
      · exfalso
        apply List.find?_eq_none.mp hf p hp
        simp [heq, hreg]
      · exact hmem
    · simp only [closePeer, hf] at hp
      rcases List.mem_map.mp hp with ⟨a, ha, rfl⟩
      by_cases hk : (a.1 == pid) = true
      · rw [if_pos hk] at hreg
        simp at hreg
      · rw [if_neg hk] at hsid hreg ⊢
        rcases List.mem_cons.mp (hcov a ha hsid hreg) with heq | hmem
        · exact absurd (by simp [heq]) hk
        · exact hmem

/-! ## Claim theorems -/

/-- C1 (amended): in every reachable state the number of live sessions is at
most browser_max_sessions, and a create_session call made when the pool is full
with an id that is not already present fails with the at-capacity error and
leaves the pool unchanged. (As stated the claim is false: at a full pool,
create_session with an id that is already present returns the existing session
instead of failing; see the counterexample.) -/
theorem c1_session_capacity (cfg : Settings) (sys : SystemState)
    (h : Reachable cfg sys) :
    sys.pool.pages.length ≤ cfg.browser_max_sessions
    ∧ ∀ (id : String) (w hh : Option Nat) (now : ℚ),
        cfg.browser_max_sessions ≤ sys.pool.pages.length →
        sys.pool.lookup id = none →
        createSession cfg sys.pool id w hh now = (.atCapacity, sys.pool) := by
  have hfull : ∀ (st : PoolState) (id : String) (w hh : Option Nat) (now : ℚ),
      cfg.browser_max_sessions ≤ st.pages.length → st.lookup id = none →
      createSession cfg st id w hh now = (.atCapacity, st) := by
    intro st id w hh now hcap hnone
    unfold createSession
    rw [hnone, if_pos hcap]
  refine ⟨?_, fun id w hh now hcap hnone => hfull _ id w hh now hcap hnone⟩
  induction h with
  | init => exact Nat.zero_le _
  | create sys id w hh now hr ih =>
    rw [apiCreateSession_pool]
    exact createSession_length cfg sys.pool id w hh now ih
  | load sys id url outcome now hr ih =>
    rw [apiLoadUrlSys_pool, apiLoadUrl_length]
    exact ih
  | close sys sid hr ih =>
    rw [apiCloseSession_pool]
    exact le_trans (closeSession_length_le _ _)
      (le_trans (foldl_closePeer_pool_length_le _ _) ih)
  | joinPeer sys sid pid hr hsome ih =>
    rw [createPeer_pool]
    exact le_trans (closePeer_pool_length_le sys pid) ih
  | disconnect sys pid hr ih =>
    exact le_trans (closePeer_pool_length_le sys pid) ih
  | reap sys now hr ih =>
    rw [cleanupStaleSys_pool]
    exact le_trans (cleanupStale_length_le cfg sys.pool now) ih

/-- C1 witness: with max_sessions 2, after creating s1 and s2 the pool holds at
most 2 sessions and creating the fresh id s3 fails at capacity. -/
theorem c1_session_capacity_witness :
    ((apiCreateSession ⟨2, 120, 60, 720, 1280, 30⟩
        (apiCreateSession ⟨2, 120, 60, 720, 1280, 30⟩ ⟨⟨[]⟩, []⟩ "s1" none none 0).2
        "s2" none none 1).2).pool.pages.length ≤ 2
    ∧ createSession ⟨2, 120, 60, 720, 1280, 30⟩
        ((apiCreateSession ⟨2, 120, 60, 720, 1280, 30⟩
          (apiCreateSession ⟨2, 120, 60, 720, 1280, 30⟩ ⟨⟨[]⟩, []⟩ "s1" none none 0).2
          "s2" none none 1).2).pool "s3" none none 2
      = (.atCapacity, ((apiCreateSession ⟨2, 120, 60, 720, 1280, 30⟩
          (apiCreateSession ⟨2, 120, 60, 720, 1280, 30⟩ ⟨⟨[]⟩, []⟩ "s1" none none 0).2
          "s2" none none 1).2).pool) := by
  have hr : Reachable ⟨2, 120, 60, 720, 1280, 30⟩
      ((apiCreateSession ⟨2, 120, 60, 720, 1280, 30⟩
        (apiCreateSession ⟨2, 120, 60, 720, 1280, 30⟩ ⟨⟨[]⟩, []⟩ "s1" none none 0).2
        "s2" none none 1).2) :=
    .create _ "s2" none none 1 (.create _ "s1" none none 0 .init)
  have h := c1_session_capacity _ _ hr
  exact ⟨h.1, h.2 "s3" none none 2 (by decide) (by decide)⟩

/-- C1 counterexample: at a full pool (max 2, sessions s1 and s2, the state
reached by creating both with default dimensions) a create_session call for the
already-present id s1 does not fail with the at-capacity error: it returns the
existing session, refuting the claim that every create_session call made when
the pool is full fails at capacity. -/
theorem c1_capacity_counterexample :
    2 ≤ (PoolState.mk [("s1", ⟨720, 1280, 0⟩), ("s2", ⟨720, 1280, 1⟩)]).pages.length
    ∧ (createSession ⟨2, 120, 60, 720, 1280, 30⟩
        ⟨[("s1", ⟨720, 1280, 0⟩), ("s2", ⟨720, 1280, 1⟩)]⟩ "s1" none none 9).1
        ≠ .atCapacity
    ∧ (createSession ⟨2, 120, 60, 720, 1280, 30⟩
        ⟨[("s1", ⟨720, 1280, 0⟩), ("s2", ⟨720, 1280, 1⟩)]⟩ "s1" none none 9)
      = (.existing ⟨720, 1280, 0⟩,
         ⟨[("s1", ⟨720, 1280, 0⟩), ("s2", ⟨720, 1280, 1⟩)]⟩) := by
  refine ⟨by decide, by decide, by decide⟩

/-- C5 (amended): closing a session id always reports success at the control
plane: DELETE returns HTTP 200 with a success body even for an unknown or
already-closed id (the second of two successive closes included), and the
pool-level close of an unknown id is a silent no-op; no NotFound or 404 is
produced. -/
theorem c5_close_idempotent_success (sys : SystemState) (sid : String) :
    (apiCloseSession sys sid).1 = ⟨200, true, none, none⟩
    ∧ (apiCloseSession (apiCloseSession sys sid).2 sid).1 = ⟨200, true, none, none⟩
    ∧ ∀ st : PoolState, st.lookup sid = none → closeSession st sid = st := by
  refine ⟨rfl, rfl, ?_⟩
  intro st h
  unfold closeSession
  rw [h]
  simp

/-- C5 witness: closing the singleton pool twice reports 200 both times, and
the pool-level close of the then-unknown id is the identity. -/
theorem c5_close_idempotent_success_witness :
    (apiCloseSession (⟨⟨[("s", ⟨720, 1280, 0⟩)]⟩, []⟩ : SystemState) "s").1
      = ⟨200, true, none, none⟩
    ∧ closeSession ⟨[]⟩ "s" = ⟨[]⟩ := by
  have h := c5_close_idempotent_success ⟨⟨[("s", ⟨720, 1280, 0⟩)]⟩, []⟩ "s"
  exact ⟨h.1, h.2.2 ⟨[]⟩ (by decide)⟩

/-- C5 counterexample: for a live session s, the second of two successive
DELETE calls returns HTTP 200 with success true, not the 404 NotFound the claim
requires; the same holds for an id that never existed. -/
theorem c5_second_close_counterexample :
    ((apiCloseSession
        (apiCloseSession (⟨⟨[("s", ⟨720, 1280, 0⟩)]⟩, []⟩ : SystemState) "s").2
        "s").1.code = 200)
    ∧ ((apiCloseSession
        (apiCloseSession (⟨⟨[("s", ⟨720, 1280, 0⟩)]⟩, []⟩ : SystemState) "s").2
        "s").1.code ≠ 404)
    ∧ ((apiCloseSession
        (apiCloseSession (⟨⟨[("s", ⟨720, 1280, 0⟩)]⟩, []⟩ : SystemState) "s").2
        "s").1.success = true)
    ∧ ((apiCloseSession (⟨⟨[]⟩, []⟩ : SystemState) "x").1.code = 200) := by
  refine ⟨by decide, by decide, by decide, by decide⟩

/-- C6 (amended): a navigation that hits the goto deadline is reported as a
failure, not converted to success: BrowserPool.navigate catches the timeout and
returns False, and POST load then answers HTTP 500 with no success marker. -/
theorem c6_nav_timeout_failure (st : PoolState) (id url : String) (now : ℚ)
    (sd : SessionData) (hs : st.lookup id = some sd)
    (hu : httpUrlValid url = true) :
    navigate st id .timeout now = .ok (false, st)
    ∧ (apiLoadUrl st id url .timeout now).1.code = 500
    ∧ (apiLoadUrl st id url .timeout now).1.success = false := by
  have hn : navigate st id .timeout now = .ok (false, st) := by
    simp [navigate, hs]
  refine ⟨hn, ?_, ?_⟩ <;> simp [apiLoadUrl, hu, hn]

/-- C6 witness: for the live session s and url https://example.com, a goto
timeout yields navigate False and a 500 from POST load. -/
theorem c6_nav_timeout_failure_witness :
    navigate ⟨[("s", ⟨720, 1280, 0⟩)]⟩ "s" .timeout 5
      = .ok (false, ⟨[("s", ⟨720, 1280, 0⟩)]⟩)
    ∧ (apiLoadUrl ⟨[("s", ⟨720, 1280, 0⟩)]⟩ "s" "https://example.com" .timeout 5).1.code
      = 500 := by
  have h := c6_nav_timeout_failure ⟨[("s", ⟨720, 1280, 0⟩)]⟩ "s" "https://example.com"
    5 ⟨720, 1280, 0⟩ (by decide) (by decide)
  exact ⟨h.1, h.2.1⟩

/-- C6 counterexample: with session s live, a navigation timeout produces an
HTTP 500 error response with success false from POST load, refuting the claim
that the timeout is converted to a success result at the control plane. -/
theorem c6_timeout_counterexample :
    ((apiLoadUrl ⟨[("s", ⟨720, 1280, 0⟩)]⟩ "s" "https://example.com" .timeout 5).1
      = ⟨500, false, none, none⟩)
    ∧ ((apiLoadUrl ⟨[("s", ⟨720, 1280, 0⟩)]⟩ "s" "https://example.com" .timeout 5).1.success
      ≠ true) := by
  refine ⟨by decide, by decide⟩

/-- C7 (amended): create_session for an id that already names a live session
returns that existing session as a success (HTTP 200 with the existing
viewport, the requested dimensions ignored) and leaves the whole state
unchanged; no Exists or AlreadyExists error is reported. -/
theorem c7_create_existing_id (cfg : Settings) (sys : SystemState) (id : String)
    (w h : Option Nat) (now : ℚ) (page : SessionData)
    (hp : sys.pool.lookup id = some page) :
    apiCreateSession cfg sys id w h now
      = (⟨200, true, none, some (page.width, page.height)⟩, sys) := by
  simp [apiCreateSession, createSession, hp]

/-- C7 witness: re-creating the live id a with new dimensions answers 200 with
the original 300 by 400 viewport and the unchanged state. -/
theorem c7_create_existing_id_witness :
    apiCreateSession defaultSettings
      (⟨⟨[("a", ⟨300, 400, 0⟩)]⟩, []⟩ : SystemState) "a" (some 555) (some 666) 5
      = (⟨200, true, none, some (300, 400)⟩, ⟨⟨[("a", ⟨300, 400, 0⟩)]⟩, []⟩) :=
  c7_create_existing_id defaultSettings ⟨⟨[("a", ⟨300, 400, 0⟩)]⟩, []⟩ "a"
    (some 555) (some 666) 5 ⟨300, 400, 0⟩ (by decide)

/-- C7 counterexample: create for the live id a answers success true, not the
Exists or AlreadyExists outcome the claim requires (the pool is unchanged,
which is the part of the claim that does hold). -/
theorem c7_exists_counterexample :
    ((apiCreateSession defaultSettings
        (⟨⟨[("a", ⟨300, 400, 0⟩)]⟩, []⟩ : SystemState) "a" (some 555) (some 666) 5).1.success
      = true)
    ∧ ((apiCreateSession defaultSettings
        (⟨⟨[("a", ⟨300, 400, 0⟩)]⟩, []⟩ : SystemState) "a" (some 555) (some 666) 5).1.code
      ≠ 409)
    ∧ ((createSession defaultSettings ⟨[("a", ⟨300, 400, 0⟩)]⟩ "a"
        (some 555) (some 666) 5).1 = .existing ⟨300, 400, 0⟩)
    ∧ ((apiCreateSession defaultSettings
        (⟨⟨[("a", ⟨300, 400, 0⟩)]⟩, []⟩ : SystemState) "a" (some 555) (some 666) 5).2
      = ⟨⟨[("a", ⟨300, 400, 0⟩)]⟩, []⟩) := by
  refine ⟨by decide, by decide, by decide, by decide⟩

/-- C8 (amended): POST load accepts exactly the schemes http and https, but a
url with a missing scheme such as example.com is rejected by request validation
with HTTP 422 before the handler runs; no https prefix is prepended (that
rewrite exists only in the non-normative framebuffer variant of the renderer). -/
theorem c8_url_scheme_validation (st : PoolState) (id url : String)
    (outcome : GotoOutcome) (now : ℚ) :
    (∀ sd, st.lookup id = some sd → httpUrlValid url = true →
      (apiLoadUrl st id url .ok now).1 = ⟨200, true, some url, none⟩)
    ∧ (httpUrlValid url = false →
        apiLoadUrl st id url outcome now = (⟨422, false, none, none⟩, st))
    ∧ httpUrlValid "example.com" = false
    ∧ httpUrlValid "https://example.com" = true
    ∧ httpUrlValid "http://example.com" = true
    ∧ httpUrlValid "ftp://example.com" = false := by
  refine ⟨?_, ?_, by decide, by decide, by decide, by decide⟩
  · intro sd hs hu
    simp [apiLoadUrl, navigate, hs, hu]
  · intro hu
    simp [apiLoadUrl, hu]

/-- C8 witness: with session s live, loading https://example.com succeeds while
the scheme-less example.com is rejected with 422. -/
theorem c8_url_scheme_validation_witness :
    (apiLoadUrl ⟨[("s", ⟨720, 1280, 0⟩)]⟩ "s" "https://example.com" .ok 5).1
      = ⟨200, true, some "https://example.com", none⟩
    ∧ apiLoadUrl ⟨[("s", ⟨720, 1280, 0⟩)]⟩ "s" "example.com" .ok 5
      = (⟨422, false, none, none⟩, ⟨[("s", ⟨720, 1280, 0⟩)]⟩) := by
  refine ⟨(c8_url_scheme_validation ⟨[("s", ⟨720, 1280, 0⟩)]⟩ "s" "https://example.com"
      .ok 5).1 ⟨720, 1280, 0⟩ (by decide) (by decide),
    (c8_url_scheme_validation ⟨[("s", ⟨720, 1280, 0⟩)]⟩ "s" "example.com"
      .ok 5).2.1 (by decide)⟩

/-- C8 counterexample: POST load with the scheme-less url example.com is
rejected with a 422 validation error and does not succeed with the url
https://example.com, refuting the prepend-and-succeed half of the claim. -/
theorem c8_prepend_counterexample :
    ((apiLoadUrl ⟨[("s", ⟨720, 1280, 0⟩)]⟩ "s" "example.com" .ok 5).1.code = 422)
    ∧ ((apiLoadUrl ⟨[("s", ⟨720, 1280, 0⟩)]⟩ "s" "example.com" .ok 5).1.success = false)
    ∧ ((apiLoadUrl ⟨[("s", ⟨720, 1280, 0⟩)]⟩ "s" "example.com" .ok 5).1.url
      ≠ some "https://example.com") := by
  refine ⟨by decide, by decide, by decide⟩

/-- C3 (amended): an explicit DELETE of session s closes every peer transport
bound to s and a subsequent lookup of s returns nothing; the idle-timeout
reaper also removes a stale s from the pool (lookup returns nothing), but — in
contrast to the claim — it never touches the peer transports bound to s, so the
all-peers-closed guarantee holds only for the explicit close path. -/
theorem c3_close_session_closes_peers (cfg : Settings) (sys : SystemState)
    (sid : String) (hwf : WellFormedPeers sys) :
    (∀ p ∈ ((apiCloseSession sys sid).2).peers, p.2.session_id = sid →
      p.2.state = .closed ∧ p.2.registered = false)
    ∧ ((apiCloseSession sys sid).2).pool.lookup sid = none
    ∧ (∀ (now : ℚ) (sd : SessionData), sys.pool.lookup sid = some sd →
        cfg.browser_session_timeout < now - sd.timestamp →
        (cleanupStaleSys cfg sys now).pool.lookup sid = none) := by
  refine ⟨?_, ?_, ?_⟩
  · have hcov : ∀ p ∈ sys.peers, p.2.session_id = sid → p.2.registered = true →
        p.1 ∈ ((sys.peers.filter
          (fun p => p.2.session_id == sid && p.2.registered)).map (·.1)) := by
      intro p hp hsid hreg
      exact List.mem_map.mpr ⟨p, List.mem_filter.mpr ⟨hp, by simp [hsid, hreg]⟩, rfl⟩
    have hc := foldl_closePeer_closes sid _ sys hwf hcov
    intro p hp hsid
    exact hc p hp hsid
  · rw [apiCloseSession_pool]
    exact lookup_closeSession_self _ _
  · intro now sd hsd hstale
    rw [cleanupStaleSys_pool]
    unfold cleanupStale
    apply lookup_foldl_closeSession_mem
    unfold PoolState.lookup at hsd
    rcases ho : sys.pool.pages.find? (fun p => p.1 == sid) with _ | q
    · rw [ho] at hsd
      cases hsd
    · rw [ho] at hsd
      have hq2 : q.2 = sd := by simpa using hsd
      have hqmem := List.mem_of_find?_eq_some ho
      have hq1 : q.1 = sid := by simpa using List.find?_some ho
      refine List.mem_map.mpr ⟨q, List.mem_filter.mpr ⟨hqmem, ?_⟩, hq1⟩
      rw [hq2]
      exact decide_eq_true hstale

/-- C3 witness: for the state with session s (created at time 0) and the joined
peer p, the DELETE path leaves the lookup of s empty, and the reaper at time
200 (timeout 120) also removes s from the pool. -/
theorem c3_close_session_closes_peers_witness :
    ((apiCloseSession
        (createPeer (apiCreateSession defaultSettings ⟨⟨[]⟩, []⟩ "s" none none 0).2 "s" "p")
        "s").2).pool.lookup "s" = none
    ∧ ((cleanupStaleSys defaultSettings
        (createPeer (apiCreateSession defaultSettings ⟨⟨[]⟩, []⟩ "s" none none 0).2 "s" "p")
        200).pool.lookup "s" = none) := by
  have h := c3_close_session_closes_peers defaultSettings
    (createPeer (apiCreateSession defaultSettings ⟨⟨[]⟩, []⟩ "s" none none 0).2 "s" "p")
    "s" (by
      intro p hp hr
      have hp2 : p ∈ [("p", (⟨"s", .connected, true⟩ : PeerData))] := hp
      rcases List.mem_singleton.mp hp2 with rfl
      cases hr)
  exact ⟨h.2.1, h.2.2 200 ⟨720, 1280, 0⟩ rfl (by norm_num [defaultSettings])⟩

/-- C3 counterexample: session s (created at time 0, idle timeout 120) has the
joined peer p; when the reaper closes s at time 200, the lookup of s returns
nothing but the peer transport bound to s is still connected and registered —
the reaper-triggered close does not close the peers bound to the session. -/
theorem c3_reaper_counterexample :
    ((cleanupStaleSys defaultSettings
        (⟨⟨[("s", ⟨720, 1280, 0⟩)]⟩, [("p", ⟨"s", .connected, true⟩)]⟩ : SystemState)
        200).pool.lookup "s" = none)
    ∧ ((cleanupStaleSys defaultSettings
        (⟨⟨[("s", ⟨720, 1280, 0⟩)]⟩, [("p", ⟨"s", .connected, true⟩)]⟩ : SystemState)
        200).peers = [("p", ⟨"s", .connected, true⟩)]) := by
  constructor
  · norm_num [cleanupStaleSys, cleanupStale, closeSession, PoolState.lookup,
      defaultSettings]
  · rfl

/-- Invariant of the data channel event loop: the driver calls issued so far,
followed by the calls the queued handler tasks will issue, equal the decoded
receipt sequence. -/
theorem loop_dispatch_inv (s : LoopState) (h : LoopReachable s) :
    s.dispatched ++ s.queue.filterMap decodeEvent
      = s.received.filterMap decodeEvent := by
  induction h with
  | init => rfl
  | recv s m hprev ih =>
    rw [List.filterMap_append, List.filterMap_append, ← List.append_assoc, ih]
  | run r q d m hprev ih =>
    cases hm : decodeEvent m with
    | none =>
      rw [List.filterMap_cons_none hm] at ih
      simpa [hm] using ih
    | some c =>
      rw [List.filterMap_cons_some hm] at ih
      simpa [hm, List.append_assoc] using ih

/-- C4: once the ready queue has drained, the driver has received exactly the
decodable input events of the data channel, in receipt order: handler tasks are
spawned FIFO by asyncio.create_task and each issues its single driver call in
its first execution slice, so dispatch order equals receipt order. -/
theorem c4_input_order_preserved (s : LoopState) (h : LoopReachable s)
    (hq : s.queue = []) :
    s.dispatched = s.received.filterMap decodeEvent := by
  have hinv := loop_dispatch_inv s h
  rw [hq] at hinv
  simpa using hinv

/-- C4 witness: receiving click(100,200), text hello, key Enter and running the
three handler tasks dispatches exactly those three driver calls in order. -/
theorem c4_input_order_preserved_witness :
    (⟨[msgClick, msgText, msgKey], [],
      [.click (.num 100) (.num 200), .typeText (.str "hello"),
       .pressKey (.str "Enter")]⟩ : LoopState).dispatched
      = ([msgClick, msgText, msgKey].filterMap decodeEvent)
    ∧ [msgClick, msgText, msgKey].filterMap decodeEvent
      = [.click (.num 100) (.num 200), .typeText (.str "hello"),
         .pressKey (.str "Enter")] := by
  have h0 : LoopReachable ⟨[], [], []⟩ := .init
  have h1 : LoopReachable ⟨[msgClick], [msgClick], []⟩ := .recv _ msgClick h0
  have h2 : LoopReachable ⟨[msgClick, msgText], [msgClick, msgText], []⟩ :=
    .recv _ msgText h1
  have h3 : LoopReachable
      ⟨[msgClick, msgText, msgKey], [msgClick, msgText, msgKey], []⟩ :=
    .recv _ msgKey h2
  have h4 : LoopReachable ⟨[msgClick, msgText, msgKey], [msgText, msgKey],
      [.click (.num 100) (.num 200)]⟩ :=
    .run _ [msgText, msgKey] [] msgClick h3
  have h5 : LoopReachable ⟨[msgClick, msgText, msgKey], [msgKey],
      [.click (.num 100) (.num 200), .typeText (.str "hello")]⟩ :=
    .run _ [msgKey] _ msgText h4
  have h6 : LoopReachable ⟨[msgClick, msgText, msgKey], [],
      [.click (.num 100) (.num 200), .typeText (.str "hello"),
       .pressKey (.str "Enter")]⟩ :=
    .run _ [] _ msgKey h5
  exact ⟨c4_input_order_preserved _ h6 rfl, rfl⟩

theorem createVideoFrame_pts (cfg : Settings) (b : Bytes) (c : Nat) :
    (createVideoFrame cfg b c).pts = c := by
  unfold createVideoFrame blankFrame
  split <;> rfl

theorem recvCapture_spec (cfg : Settings) (st : TrackState) (t lft iv : ℚ)
    (cap : CaptureOutcome) :
    (recvCapture cfg st t lft iv cap).1.pts = st.frame_count
    ∧ st.frame_count ≤ (recvCapture cfg st t lft iv cap).2.frame_count
    ∧ (recvCapture cfg st t lft iv cap).2.running = st.running
    ∧ ((∃ b, cap = CaptureOutcome.ok b) →
        (recvCapture cfg st t lft iv cap).2.frame_count = st.frame_count + 1) := by
  cases cap with
  | ok b =>
    exact ⟨createVideoFrame_pts cfg b st.frame_count, Nat.le_succ _, rfl, fun _ => rfl⟩
  | noBytes =>
    exact ⟨rfl, le_rfl, rfl, by rintro ⟨b, ⟨⟩⟩⟩
  | raised =>
    exact ⟨rfl, le_rfl, rfl, by rintro ⟨b, ⟨⟩⟩⟩

theorem recv_running_false (cfg : Settings) (st : TrackState) (t : ℚ)
    (cap : CaptureOutcome) (h : st.running = false) :
    recv cfg st t cap = .error () := by
  unfold recv
  rw [if_pos h]

theorem recv_none (cfg : Settings) (st : TrackState) (t : ℚ)
    (cap : CaptureOutcome) (h : st.running = true)
    (hls : st.last_screenshot = none) :
    recv cfg st t cap = .ok (recvCapture cfg st t
      (if t - st.last_frame_time < frameInterval st.fps
        then st.last_frame_time + frameInterval st.fps else t)
      (frameInterval st.fps) cap) := by
  unfold recv
  simp only [hls]
  rw [if_neg (by simp [h])]

theorem recv_skip (cfg : Settings) (st : TrackState) (t : ℚ)
    (cap : CaptureOutcome) (b : Bytes) (h : st.running = true)
    (hls : st.last_screenshot = some b)
    (hd : (if st.frame_deadline = 0 then t + frameInterval st.fps
        else st.frame_deadline) + frameInterval st.fps < t) :
    recv cfg st t cap = .ok (createVideoFrame cfg b st.frame_count,
      { st with frame_deadline := t + frameInterval st.fps
                last_frame_time :=
                  if t - st.last_frame_time < frameInterval st.fps
                  then st.last_frame_time + frameInterval st.fps else t
                frame_count := st.frame_count + 1 }) := by
  unfold recv
  simp only [hls]
  rw [if_neg (by simp [h]), if_pos hd]

theorem recv_some_noskip (cfg : Settings) (st : TrackState) (t : ℚ)
    (cap : CaptureOutcome) (b : Bytes) (h : st.running = true)
    (hls : st.last_screenshot = some b)
    (hd : ¬ ((if st.frame_deadline = 0 then t + frameInterval st.fps
        else st.frame_deadline) + frameInterval st.fps < t)) :
    recv cfg st t cap = .ok (recvCapture cfg st t
      (if t - st.last_frame_time < frameInterval st.fps
        then st.last_frame_time + frameInterval st.fps else t)
      (frameInterval st.fps) cap) := by
  unfold recv
  simp only [hls]
  rw [if_neg (by simp [h]), if_neg hd]

theorem recv_step (cfg : Settings) (st : TrackState) (t : ℚ) (cap : CaptureOutcome)
    (h : st.running = true) :
    ∃ f st2, recv cfg st t cap = .ok (f, st2) ∧ f.pts = st.frame_count
      ∧ st.frame_count ≤ st2.frame_count ∧ st2.running = true
      ∧ ((∃ b, cap = CaptureOutcome.ok b) → st2.frame_count = st.frame_count + 1) := by
  have hrc := recvCapture_spec cfg st t
    (if t - st.last_frame_time < frameInterval st.fps
      then st.last_frame_time + frameInterval st.fps else t)
    (frameInterval st.fps) cap
  cases hls : st.last_screenshot with
  | none =>
    rw [recv_none cfg st t cap h hls]
    exact ⟨_, _, rfl, hrc.1, hrc.2.1, hrc.2.2.1.trans h, hrc.2.2.2⟩
  | some b =>
    by_cases hd : (if st.frame_deadline = 0 then t + frameInterval st.fps
        else st.frame_deadline) + frameInterval st.fps < t
    · rw [recv_skip cfg st t cap b h hls hd]
      exact ⟨_, _, rfl, createVideoFrame_pts cfg b st.frame_count, Nat.le_succ _, h,
        fun _ => rfl⟩
    · rw [recv_some_noskip cfg st t cap b h hls hd]
      exact ⟨_, _, rfl, hrc.1, hrc.2.1, hrc.2.2.1.trans h, hrc.2.2.2⟩

theorem runTrack_pts_ge (cfg : Settings) (L : List (ℚ × CaptureOutcome))
    (st : TrackState) (h : st.running = true) :
    ∀ f ∈ (runTrack cfg st L).1, st.frame_count ≤ f.pts := by
  induction L generalizing st with
  | nil => intro f hf; simp [runTrack] at hf
  | cons x L ih =>
    rcases x with ⟨t, cap⟩
    rcases recv_step cfg st t cap h with ⟨f, st2, heq, hpts, hle, hrun, _⟩
    intro g hg
    simp only [runTrack, heq] at hg
    rcases List.mem_cons.mp hg with rfl | hg2
    · exact le_of_eq hpts.symm
    · exact le_trans hle (ih st2 hrun g hg2)

theorem runTrack_pairwise_le (cfg : Settings) (L : List (ℚ × CaptureOutcome))
    (st : TrackState) (h : st.running = true) :
    ((runTrack cfg st L).1.map Frame.pts).Pairwise (· ≤ ·) := by
  induction L generalizing st with
  | nil => simp [runTrack]
  | cons x L ih =>
    rcases x with ⟨t, cap⟩
    rcases recv_step cfg st t cap h with ⟨f, st2, heq, hpts, hle, hrun, _⟩
    simp only [runTrack, heq]
    rw [List.map_cons, List.pairwise_cons]
    refine ⟨?_, ih st2 hrun⟩
    intro y hy
    rcases List.mem_map.mp hy with ⟨g, hg, rfl⟩
    calc f.pts = st.frame_count := hpts
      _ ≤ st2.frame_count := hle
      _ ≤ g.pts := runTrack_pts_ge cfg L st2 hrun g hg

theorem runTrack_pairwise_lt (cfg : Settings) (L : List (ℚ × CaptureOutcome))
    (st : TrackState) (h : st.running = true)
    (hall : ∀ i ∈ L, ∃ b, i.2 = CaptureOutcome.ok b) :
    ((runTrack cfg st L).1.map Frame.pts).Pairwise (· < ·) := by
  induction L generalizing st with
  | nil => simp [runTrack]
  | cons x L ih =>
    rcases x with ⟨t, cap⟩
    rcases recv_step cfg st t cap h with ⟨f, st2, heq, hpts, hle, hrun, hinc⟩
    have hcount : st2.frame_count = st.frame_count + 1 :=
      hinc (hall (t, cap) (List.mem_cons_self _ _))
    simp only [runTrack, heq]
    rw [List.map_cons, List.pairwise_cons]
    refine ⟨?_, ih st2 hrun (fun i hi => hall i (List.mem_cons_of_mem _ hi))⟩
    intro y hy
    rcases List.mem_map.mp hy with ⟨g, hg, rfl⟩
    have hge := runTrack_pts_ge cfg L st2 hrun g hg
    omega

/-- C2 (amended): per subscriber, presentation ordinals delivered by recv never
decrease, and they strictly increase across every run in which each frame comes
from a successful screenshot (the capture path, and the skip/reuse path, both
advance the ordinal). As stated the claim is false: a blank-frame fallback
outside the skip path returns the current ordinal without advancing it, so two
consecutive fallback frames share a pts; see the counterexample. -/
theorem c2_pts_monotone (cfg : Settings) (st : TrackState)
    (L : List (ℚ × CaptureOutcome)) (h : st.running = true) :
    ((runTrack cfg st L).1.map Frame.pts).Pairwise (· ≤ ·)
    ∧ ((∀ i ∈ L, ∃ b, i.2 = CaptureOutcome.ok b) →
        ((runTrack cfg st L).1.map Frame.pts).Pairwise (· < ·)) :=
  ⟨runTrack_pairwise_le cfg L st h,
   fun hall => runTrack_pairwise_lt cfg L st h hall⟩

/-- C2 witness: two recv calls with successful screenshots (the second through
the skip/reuse path) deliver pts 0 then 1, strictly increasing. -/
theorem c2_pts_monotone_witness :
    (((runTrack defaultSettings (initTrack 30)
      [(1, .ok ⟨720, 1280, true⟩), (2, .ok ⟨720, 1280, true⟩)]).1.map
        Frame.pts).Pairwise (· < ·))
    ∧ ((runTrack defaultSettings (initTrack 30)
      [(1, .ok ⟨720, 1280, true⟩), (2, .ok ⟨720, 1280, true⟩)]).1.map
        Frame.pts) = [0, 1] := by
  constructor
  · refine (c2_pts_monotone defaultSettings (initTrack 30) _ rfl).2 ?_
    intro i hi
    rcases List.mem_cons.mp hi with rfl | hi2
    · exact ⟨_, rfl⟩
    · rcases List.mem_cons.mp hi2 with rfl | hi3
      · exact ⟨_, rfl⟩
      · cases hi3
  · norm_num [runTrack, recv, recvCapture, createVideoFrame, blankFrame,
      frameInterval, initTrack]

/-- C2 counterexample: starting a fresh track, two recv calls whose screenshot
returns no bytes both deliver the blank fallback frame with pts 0, so the pts
of frame 0 is not strictly below the pts of frame 1. -/
theorem c2_pts_counterexample :
    ((runTrack defaultSettings (initTrack 30)
      [(1, .noBytes), (2, .noBytes)]).1.map Frame.pts = [0, 0])
    ∧ ¬ (((runTrack defaultSettings (initTrack 30)
        [(1, .noBytes), (2, .noBytes)]).1.map Frame.pts).Pairwise (· < ·)) := by
  have hev : (runTrack defaultSettings (initTrack 30)
      [(1, .noBytes), (2, .noBytes)]).1.map Frame.pts = [0, 0] := by
    norm_num [runTrack, recv, recvCapture, blankFrame, frameInterval, initTrack,
      defaultSettings]
  refine ⟨hev, ?_⟩
  rw [hev]
  decide

/-- C10: while the track is running and recv actually calls the screenshot
capture (the skip/reuse guard is off), a capture that returns no bytes or
raises never propagates an error: recv returns the blank black frame whose
dimensions are the process-wide settings defaults, whatever viewport the bound
session in the pool actually has. -/
theorem c10_blank_frame_on_capture_failure (cfg : Settings) (st : TrackState)
    (t : ℚ) (cap : CaptureOutcome) (pool : PoolState) (sid : String)
    (sd : SessionData) (hrun : st.running = true)
    (hskip : skipGuard st t = false)
    (hcap : cap = CaptureOutcome.noBytes ∨ cap = CaptureOutcome.raised)
    (_hsd : pool.lookup sid = some sd) :
    ∃ st2, recv cfg st t cap = .ok (blankFrame cfg st.frame_count, st2)
      ∧ (blankFrame cfg st.frame_count).width = cfg.webrtc_video_width
      ∧ (blankFrame cfg st.frame_count).height = cfg.webrtc_video_height := by
  cases hls : st.last_screenshot with
  | none =>
    rw [recv_none cfg st t cap hrun hls]
    rcases hcap with rfl | rfl <;> exact ⟨_, rfl, rfl, rfl⟩
  | some b =>
    have hd : ¬ ((if st.frame_deadline = 0 then t + frameInterval st.fps
        else st.frame_deadline) + frameInterval st.fps < t) := by
      simp only [skipGuard, hls, Option.isSome_some, Bool.true_and,
        decide_eq_false_iff_not] at hskip
      exact hskip
    rw [recv_some_noskip cfg st t cap b hrun hls hd]
    rcases hcap with rfl | rfl <;> exact ⟨_, rfl, rfl, rfl⟩

/-- C10 witness: a fresh track bound to a session whose viewport is 100 by 100
still produces, on a failed capture, a blank frame sized 720 by 1280 (the
settings defaults) rather than the session viewport. -/
theorem c10_blank_frame_witness :
    ∃ st2, recv defaultSettings (initTrack 30) 1 .noBytes
        = .ok (blankFrame defaultSettings 0, st2)
      ∧ (blankFrame defaultSettings 0).width = 720
      ∧ (blankFrame defaultSettings 0).height = 1280 :=
  c10_blank_frame_on_capture_failure defaultSettings (initTrack 30) 1 .noBytes
    ⟨[("s", ⟨100, 100, 0⟩)]⟩ "s" ⟨100, 100, 0⟩ rfl rfl (Or.inl rfl) rfl

theorem record_frame_window (m : BandwidthMonitor) (t size : ℚ)
    (P : List (ℚ × ℚ)) (hsuf : m.frame_times <:+ P)
    (hlen : m.frame_times.length = min maxHistory P.length) :
    (record_frame m t size).frame_times <:+ (P ++ [(t, size)])
    ∧ (record_frame m t size).frame_times.length
      = min maxHistory (P ++ [(t, size)]).length := by
  have hsuf2 : m.frame_times ++ [(t, size)] <:+ P ++ [(t, size)] := by
    rcases hsuf with ⟨w, hw⟩
    exact ⟨w, by rw [← List.append_assoc, hw]⟩
  unfold record_frame
  split
  · rename_i hgt
    refine ⟨List.IsSuffix.trans (List.tail_suffix _) hsuf2, ?_⟩
    simp only [List.length_tail, List.length_append, List.length_cons,
      List.length_nil] at *
    unfold maxHistory at *
    omega
  · rename_i hle
    refine ⟨hsuf2, ?_⟩
    simp only [List.length_append, List.length_cons, List.length_nil] at *
    unfold maxHistory at *
    omega

theorem foldl_record_window (L : List (ℚ × ℚ)) (m : BandwidthMonitor)
    (P : List (ℚ × ℚ)) (hsuf : m.frame_times <:+ P)
    (hlen : m.frame_times.length = min maxHistory P.length) :
    (L.foldl (fun m s => record_frame m s.1 s.2) m).frame_times <:+ (P ++ L)
    ∧ (L.foldl (fun m s => record_frame m s.1 s.2) m).frame_times.length
      = min maxHistory (P ++ L).length := by
  induction L generalizing m P with
  | nil => simpa using ⟨hsuf, hlen⟩
  | cons x L ih =>
    rcases x with ⟨tx, sx⟩
    have hstep := record_frame_window m tx sx P hsuf hlen
    have hrec := ih (record_frame m tx sx) (P ++ [(tx, sx)]) hstep.1 hstep.2
    simpa [List.append_assoc] using hrec

theorem recordAll_window (samples : List (ℚ × ℚ)) :
    (recordAll samples).frame_times <:+ samples
    ∧ (recordAll samples).frame_times.length = min maxHistory samples.length := by
  have h := foldl_record_window samples ⟨[]⟩ [] (List.suffix_refl []) (by simp)
  simpa [recordAll] using h

theorem get_bandwidth_formula (m : BandwidthMonitor)
    (h2 : 2 ≤ m.frame_times.length)
    (hdt : 1/10 ≤ ((m.frame_times.getLast?).getD (0, 0)).1
        - ((m.frame_times.head?).getD (0, 0)).1) :
    get_bandwidth_mbps m
      = max (1/2) (min 50 ((m.frame_times.map (·.2)).sum * 8
          / (((m.frame_times.getLast?).getD (0, 0)).1
            - ((m.frame_times.head?).getD (0, 0)).1) / 1000000)) := by
  simp only [get_bandwidth_mbps]
  rw [if_neg (by omega), if_neg (not_lt.mpr hdt)]

theorem adjustTick_tiers (m : BandwidthMonitor) (q fps : Nat) :
    (fastThreshold < get_bandwidth_mbps m → adjustTick true m q fps = (90, 30))
    ∧ (normalThreshold < get_bandwidth_mbps m →
        get_bandwidth_mbps m ≤ fastThreshold → adjustTick true m q fps = (75, 30))
    ∧ (get_bandwidth_mbps m ≤ normalThreshold →
        adjustTick true m q fps = (50, 20)) := by
  refine ⟨?_, ?_, ?_⟩
  · intro h1
    simp [adjustTick, get_recommended_quality, get_recommended_fps, h1]
  · intro h1 h2
    have hn : ¬ (fastThreshold < get_bandwidth_mbps m) := not_lt.mpr h2
    simp [adjustTick, get_recommended_quality, get_recommended_fps, hn, h1]
  · intro h1
    have hn : ¬ (fastThreshold < get_bandwidth_mbps m) := by
      rw [not_lt]
      exact le_trans h1 (by norm_num [normalThreshold, fastThreshold])
    have hn2 : ¬ (normalThreshold < get_bandwidth_mbps m) := not_lt.mpr h1
    simp [adjustTick, get_recommended_quality, get_recommended_fps, hn, hn2]

/-- C9 (amended): the sliding window holds exactly the most recent up to 30
samples; whenever it has at least 2 samples spanning at least 0.1 s the
estimate equals 8 times the byte total over the window time span in Mbps,
clamped to the interval from 0.5 to 50 (with fewer samples or a shorter span
the estimator instead returns a 5.0 Mbps default, which falsifies the claim as
stated — see the counterexample); and at an adjustment tick with adaptive mode
on, an estimate above 5.0 yields quality 90 and fps 30, one in (2.0, 5.0]
yields 75 and 30, and one at most 2.0 yields 50 and 20. -/
theorem c9_bandwidth_estimator (samples : List (ℚ × ℚ)) :
    ((recordAll samples).frame_times <:+ samples
      ∧ (recordAll samples).frame_times.length = min 30 samples.length)
    ∧ (2 ≤ (recordAll samples).frame_times.length →
        1/10 ≤ (((recordAll samples).frame_times.getLast?).getD (0, 0)).1
            - (((recordAll samples).frame_times.head?).getD (0, 0)).1 →
        get_bandwidth_mbps (recordAll samples)
          = max (1/2) (min 50
              (((recordAll samples).frame_times.map (·.2)).sum * 8
                / ((((recordAll samples).frame_times.getLast?).getD (0, 0)).1
                  - (((recordAll samples).frame_times.head?).getD (0, 0)).1)
                / 1000000)))
    ∧ (∀ (m : BandwidthMonitor) (q fps : Nat),
        (5 < get_bandwidth_mbps m → adjustTick true m q fps = (90, 30))
        ∧ (2 < get_bandwidth_mbps m → get_bandwidth_mbps m ≤ 5 →
            adjustTick true m q fps = (75, 30))
        ∧ (get_bandwidth_mbps m ≤ 2 → adjustTick true m q fps = (50, 20))) := by
  refine ⟨recordAll_window samples, ?_, ?_⟩
  · intro h2 hdt
    exact get_bandwidth_formula _ h2 hdt
  · intro m q fps
    exact adjustTick_tiers m q fps

/-- C9 witness: recording the samples (0 s, 250000 B) and (1 s, 750000 B) keeps
both in the window; the estimate is 8 Mbps (equal to the clamped formula), and
the adaptive tick moves quality and fps to 90 and 30. -/
theorem c9_bandwidth_estimator_witness :
    ((recordAll [((0:ℚ), 250000), (1, 750000)]).frame_times
      <:+ [((0:ℚ), 250000), (1, 750000)])
    ∧ get_bandwidth_mbps (recordAll [((0:ℚ), 250000), (1, 750000)]) = 8
    ∧ adjustTick true (recordAll [((0:ℚ), 250000), (1, 750000)]) 75 30 = (90, 30) := by
  have hft : (recordAll [((0:ℚ), 250000), (1, 750000)]).frame_times
      = [((0:ℚ), 250000), (1, 750000)] := by
    norm_num [recordAll, record_frame, maxHistory]
  have h := c9_bandwidth_estimator [((0:ℚ), 250000), (1, 750000)]
  have hbw : get_bandwidth_mbps (recordAll [((0:ℚ), 250000), (1, 750000)]) = 8 := by
    rw [h.2.1 (by rw [hft]; norm_num)
      (by rw [hft]; norm_num [List.getLast?, List.head?])]
    rw [hft]
    norm_num [List.getLast?, List.head?, min_def, max_def]
  exact ⟨h.1.1, hbw,
    (h.2.2 (recordAll [((0:ℚ), 250000), (1, 750000)]) 75 30).1 (by rw [hbw]; norm_num)⟩

/-- C9 counterexample: with two samples 0.05 s apart the estimator returns the
5.0 Mbps default, while the clamped formula over the same window evaluates to
50 — the estimate does not equal the clamped formula for every window, refuting
the claim as stated. -/
theorem c9_default_counterexample :
    get_bandwidth_mbps (recordAll [((0:ℚ), 1000000), (1/20, 1000000)]) = 5
    ∧ max (1/2) (min 50
        (((recordAll [((0:ℚ), 1000000), (1/20, 1000000)]).frame_times.map (·.2)).sum * 8
          / ((((recordAll [((0:ℚ), 1000000), (1/20, 1000000)]).frame_times.getLast?).getD (0, 0)).1
            - (((recordAll [((0:ℚ), 1000000), (1/20, 1000000)]).frame_times.head?).getD (0, 0)).1)
          / 1000000)) = 50
    ∧ (5:ℚ) ≠ 50 := by
  have hmon : recordAll [((0:ℚ), 1000000), (1/20, 1000000)]
      = ⟨[((0:ℚ), 1000000), (1/20, 1000000)]⟩ := by
    norm_num [recordAll, record_frame, maxHistory]
  refine ⟨?_, ?_, by norm_num⟩
  · rw [hmon]
    norm_num [get_bandwidth_mbps, List.getLast?, List.head?]
  · rw [hmon]
    norm_num [List.getLast?, List.head?, min_def, max_def]

end Jiomosa
